import Mathlib

/-!
Verification of the NUMBER-GUESSER repository: a shallow embedding of the
game-progression logic of `src/App.tsx` (`handleGuess`, `getHints`) and of
the recognition wrapper `src/services/geminiService.ts` (`recognizeDigit`),
together with proofs of the specification claims.

JS strings are embedded as `List Char`; the asynchronous external
classification service is embedded as an oracle `Nat → CallOutcome` giving
the outcome of the i-th service call; the `while` retry loop is embedded as
a fuel-indexed recursion whose fuel `MAX_RETRIES + 1` dominates the loop
counter, which increases by exactly 1 per iteration.
-/

namespace NumberGuesser

/-- JS strings, embedded as lists of characters. -/
abbrev Str := List Char

/-! ## Constants (src/unnamed/part_000, `constants.ts`) -/

def MAX_HINTS : Nat := 3

def MAX_RETRIES : Nat := 3

def INITIAL_RETRY_DELAY_MS : Nat := 1000

/-! ## String helpers used by `recognizeDigit` -/

/-- JS `s.split(';base64,')` with accumulator `cur` for the segment being
built: left-to-right, non-overlapping split on the literal separator
(the separator cannot overlap itself, so this is plain occurrence
splitting). -/
def splitB64 (cur : Str) : Str → List Str
  | ';' :: 'b' :: 'a' :: 's' :: 'e' :: '6' :: '4' :: ',' :: rest =>
      cur :: splitB64 [] rest
  | c :: rest => splitB64 (cur ++ [c]) rest
  | [] => [cur]

/-- Number of (left-to-right, non-overlapping) occurrences of the literal
`';base64,'` in a string; since the separator cannot overlap itself this
is exactly the number of occurrences. -/
def countB64 : Str → Nat
  | ';' :: 'b' :: 'a' :: 's' :: 'e' :: '6' :: '4' :: ',' :: rest =>
      countB64 rest + 1
  | _ :: rest => countB64 rest
  | [] => 0

/-- JS `parts[0].replace('data:', '')`: remove the first occurrence of
`'data:'`, wherever it is. -/
def stripFirstDataColon : Str → Str
  | 'd' :: 'a' :: 't' :: 'a' :: ':' :: rest => rest
  | c :: rest => c :: stripFirstDataColon rest
  | [] => []

/-- The `mimeType` computed by `recognizeDigit` from its input
(`parts[0].replace('data:', '')`). -/
def mimeTypeOf (s : Str) : Str := stripFirstDataColon ((splitB64 [] s).headI)

/-- Modelled from the spec claim wording only (for comparison with
`stripFirstDataColon`): strip `'data:'` only when it is leading. -/
def leadingStripDataColon (s : Str) : Str :=
  if ("data:".toList).isPrefixOf s then s.drop 5 else s

/-- JS `s.includes(pat)`. -/
def containsSub (pat : Str) : Str → Bool
  | [] => pat.isEmpty
  | c :: rest => pat.isPrefixOf (c :: rest) || containsSub pat rest

/-- JS `s.trim()` (whitespace removed from both ends). -/
def jsTrim (s : Str) : Str :=
  ((s.dropWhile Char.isWhitespace).reverse.dropWhile Char.isWhitespace).reverse

/-- JS `s.match(/\d/)`: the first decimal-digit character, if any. -/
def firstDigit (s : Str) : Option Char := s.find? Char.isDigit

/-- JS `parseInt(c, 10)` on a single decimal-digit character. -/
def jsParseIntDigit (c : Char) : Nat := c.toNat - 48

/-! ## The recognizer (src/services/geminiService.ts) -/

/-- Outcome of one call to the external classification service: either a
successful response carrying `response.text` (possibly absent), or a
thrown error carrying `error.message`. -/
inductive CallOutcome where
  | success (text : Option Str)
  | failure (msg : Str)
deriving Repr, DecidableEq

/-- Error message `'Please provide an input first.'`. -/
def inputFirstMsg : Str := "Please provide an input first.".toList

/-- Error message `'Invalid image format.'`. -/
def invalidFormatMsg : Str := "Invalid image format.".toList

/-- Error message `'AI could not identify a clear digit. Please try again.'`. -/
def noDigitMsg : Str :=
  "AI could not identify a clear digit. Please try again.".toList

/-- Error message thrown when the retry budget for quota errors is spent. -/
def quotaExhaustedMsg : Str :=
  ("API Quota Exceeded. Please try again later. "
    ++ "If this persists, check your billing settings on Google Cloud.").toList

/-- Fallback error message `'Recognition failed.'`. -/
def recognitionFailedMsg : Str := "Recognition failed.".toList

/-- Error message of the unreachable post-loop `throw`. -/
def postLoopMsg : Str :=
  "Failed to recognize digit after multiple retries. API may be unavailable.".toList

/-- The quota classification of `recognizeDigit`'s catch block:
`errorMessage.includes('429') || errorMessage.includes('API quota exceeded')
|| errorMessage.includes('RESOURCE_EXHAUSTED')`. -/
def isQuotaError (msg : Str) : Bool :=
  containsSub ("429".toList) msg
    || containsSub ("API quota exceeded".toList) msg
    || containsSub ("RESOURCE_EXHAUSTED".toList) msg

/-- JS `response.text?.trim() || 'X'`. -/
def recognizedTextOf (text : Option Str) : Str :=
  match text with
  | none => ['X']
  | some s => if jsTrim s = [] then ['X'] else jsTrim s

deriving instance DecidableEq for Except

/-- Result of a run of `recognizeDigit`: the returned digit or the thrown
error message, the number of service calls performed, and the backoff
delays awaited (in ms, in order). -/
structure RecRun where
  result : Except Str Char
  calls : Nat
  delays : List Nat
deriving Repr, DecidableEq

/-- The `while (retries <= MAX_RETRIES)` loop of `recognizeDigit`.
`fuel` is an upper bound on the remaining iterations, sound because
`retries` increases by exactly 1 on the only looping branch and every
other branch returns or throws; the entry point passes
`MAX_RETRIES + 1`, so the fuel never runs out before the loop exits on
its own.  The `throw` of the no-digit message happens inside the `try`,
so it goes through the same catch-classification as a failed call. -/
def recognizeLoopAux (outcomes : Nat → CallOutcome) :
    Nat → Nat → Nat → Nat → List Nat → RecRun
  | 0, _, _, calls, delays => ⟨.error postLoopMsg, calls, delays⟩
  | fuel + 1, retries, delay, calls, delays =>
    if retries ≤ MAX_RETRIES then
      match outcomes calls with
      | .success text =>
        match firstDigit (recognizedTextOf text) with
        | some d => ⟨.ok d, calls + 1, delays⟩
        | none =>
          if isQuotaError noDigitMsg then
            if retries < MAX_RETRIES then
              recognizeLoopAux outcomes fuel (retries + 1) (delay * 2)
                (calls + 1) (delays ++ [delay])
            else ⟨.error quotaExhaustedMsg, calls + 1, delays⟩
          else
            ⟨.error (if noDigitMsg = [] then recognitionFailedMsg else noDigitMsg),
              calls + 1, delays⟩
      | .failure msg =>
        if isQuotaError msg then
          if retries < MAX_RETRIES then
            recognizeLoopAux outcomes fuel (retries + 1) (delay * 2)
              (calls + 1) (delays ++ [delay])
          else ⟨.error quotaExhaustedMsg, calls + 1, delays⟩
        else
          ⟨.error (if msg = [] then recognitionFailedMsg else msg),
            calls + 1, delays⟩
    else ⟨.error postLoopMsg, calls, delays⟩

/-- The retry loop entered with `retries = 0`, `delay = INITIAL_RETRY_DELAY_MS`. -/
def recognizeLoop (outcomes : Nat → CallOutcome) : RecRun :=
  recognizeLoopAux outcomes (MAX_RETRIES + 1) 0 INITIAL_RETRY_DELAY_MS 0 []

/-- `recognizeDigit` of src/services/geminiService.ts.  The prompt and the
request payload (`mimeType`, `data`) do not influence the embedded
observable behaviour, which is mediated entirely by `outcomes`. -/
def recognizeDigit (base64Image : Str) (outcomes : Nat → CallOutcome) : RecRun :=
  if base64Image = [] ∨ base64Image = "data:,".toList then
    ⟨.error inputFirstMsg, 0, []⟩
  else if (splitB64 [] base64Image).length ≠ 2 then
    ⟨.error invalidFormatMsg, 0, []⟩
  else
    recognizeLoop outcomes

/-! ## The game controller (src/App.tsx) -/

inductive GameStatus where
  | playing
  | win
  | lose
deriving Repr, DecidableEq

/-- The component state of `App` relevant to the game progression
(`isLoading` is transient — set on entry to `handleGuess` and cleared in
its `finally` — and `inputMode` only selects which collaborator produces
`imageData`, which is a parameter here). -/
structure AppState where
  targetNumber : Option Nat
  recognizedDigit : Option Nat
  gameStatus : GameStatus
  wrongGuesses : Nat
  error : Option Str
deriving Repr, DecidableEq

/-- Error message `'No input provided. Please draw a digit or capture an image.'`. -/
def noInputProvidedMsg : Str :=
  "No input provided. Please draw a digit or capture an image.".toList

/-- Fallback of the `catch` in `handleGuess`: `err.message || 'Failed to
recognize input.'`. -/
def failedToRecognizeMsg : Str := "Failed to recognize input.".toList

/-- `getHints` of src/App.tsx, a pure function of the component state it
reads (`targetNumber`, `wrongGuesses`). -/
def getHints (targetNumber : Option Nat) (wrongGuesses : Nat) : List String :=
  match targetNumber with
  | none => []
  | some t =>
    let parityWord := if t % 2 = 0 then "EVEN" else "ODD"
    let magnitudeWord := if t > 4 then "GREATER than 4" else "4 or LESS"
    let isPrime := [2, 3, 5, 7].contains t
    let primalityWord :=
      if isPrime then "PRIME"
      else if t < 2 then "NEITHER prime nor composite" else "COMPOSITE"
    (if wrongGuesses ≥ 1 then ["The number is " ++ parityWord ++ "."] else [])
      ++ (if wrongGuesses ≥ 2 then ["The number is " ++ magnitudeWord ++ "."] else [])
      ++ (if wrongGuesses ≥ 3 then ["The number is " ++ primalityWord ++ "."] else [])

/-- `handleGuess` of src/App.tsx.  `imageData` is what the active capture
collaborator produced; `outcomes` drives the service calls made by
`recognizeDigit`.  React state updates are embedded as functional record
updates; `setWrongGuesses(prev => prev + 1)` together with the stale
closure read in `if (wrongGuesses + 1 >= 5)` both see the pre-call value,
so the loss test is on the pre-increment count plus one. -/
def handleGuess (st : AppState) (imageData : Str)
    (outcomes : Nat → CallOutcome) : AppState :=
  match st.targetNumber with
  | none => st
  | some targetNumber =>
    let st1 := { st with error := none }
    if imageData = [] ∨ imageData = "data:,".toList then
      { st1 with error := some noInputProvidedMsg }
    else
      match (recognizeDigit imageData outcomes).result with
      | .error msg =>
        { st1 with
            error := some (if msg = [] then failedToRecognizeMsg else msg) }
      | .ok c =>
        let parsedDigit := jsParseIntDigit c
        let st2 := { st1 with recognizedDigit := some parsedDigit }
        if parsedDigit = targetNumber then
          { st2 with gameStatus := .win }
        else
          let st3 := { st2 with wrongGuesses := st2.wrongGuesses + 1 }
          if st2.wrongGuesses + 1 ≥ 5 then { st3 with gameStatus := .lose }
          else st3

/-- The `disabled` condition of the SUBMIT GUESS button in src/App.tsx:
`isLoading || gameStatus !== 'playing' || !!error`. -/
def submitDisabled (isLoading : Bool) (st : AppState) : Bool :=
  isLoading || decide (st.gameStatus ≠ GameStatus.playing)
    || decide (st.error ≠ none)

/-- The submit action as reachable through the UI: `handleGuess` runs only
when the SUBMIT GUESS button is enabled. -/
def guardedHandleGuess (isLoading : Bool) (st : AppState) (imageData : Str)
    (outcomes : Nat → CallOutcome) : AppState :=
  if submitDisabled isLoading st then st else handleGuess st imageData outcomes

/-! ## Helper lemmas -/

/-- Splitting yields one more segment than the number of separator
occurrences. -/
theorem splitB64_length (cur s : Str) :
    (splitB64 cur s).length = countB64 s + 1 := by
  induction cur, s using splitB64.induct with
  | _ => simp_all [splitB64, countB64]

/-- The loop makes at most `fuel` further service calls. -/
theorem recognizeLoopAux_calls_le (outs : Nat → CallOutcome) :
    ∀ fuel retries delay calls delays,
      (recognizeLoopAux outs fuel retries delay calls delays).calls
        ≤ calls + fuel := by
  intro fuel
  induction fuel with
  | zero => intro r d c ds; dsimp only [recognizeLoopAux]; omega
  | succ fuel ih =>
    intro r d c ds
    simp only [recognizeLoopAux]
    repeat' split
    all_goals try exact le_trans (ih _ _ _ _) (by omega)
    all_goals dsimp only
    all_goals omega

/-- The call counter never decreases through the loop. -/
theorem recognizeLoopAux_calls_ge (outs : Nat → CallOutcome) :
    ∀ fuel retries delay calls delays,
      calls ≤ (recognizeLoopAux outs fuel retries delay calls delays).calls := by
  intro fuel
  induction fuel with
  | zero => intro r d c ds; dsimp only [recognizeLoopAux]; omega
  | succ fuel ih =>
    intro r d c ds
    simp only [recognizeLoopAux]
    repeat' split
    all_goals try exact le_trans (Nat.le_succ c) (ih _ _ _ _)
    all_goals dsimp only
    all_goals omega

/-- A loop iteration that is actually entered performs at least one
service call. -/
theorem recognizeLoopAux_calls_pos (outs : Nat → CallOutcome)
    (fuel retries delay calls : Nat) (delays : List Nat)
    (h : retries ≤ MAX_RETRIES) :
    calls + 1
      ≤ (recognizeLoopAux outs (fuel + 1) retries delay calls delays).calls := by
  simp only [recognizeLoopAux]
  rw [if_pos h]
  repeat' split
  all_goals try exact recognizeLoopAux_calls_ge _ _ _ _ _ _
  all_goals try dsimp only
  all_goals omega

/-- Once the loop is entered, at least one service call happens. -/
theorem recognizeLoop_calls_pos (outs : Nat → CallOutcome) :
    1 ≤ (recognizeLoop outs).calls :=
  recognizeLoopAux_calls_pos outs MAX_RETRIES 0 INITIAL_RETRY_DELAY_MS 0 []
    (Nat.zero_le _)

/-- A quota-classified failed call with retry budget remaining sleeps for
`delay` and loops with the delay doubled. -/
theorem recognizeLoopAux_quota_step (outs : Nat → CallOutcome)
    (fuel retries delay calls : Nat) (delays : List Nat) (msg : Str)
    (h1 : retries ≤ MAX_RETRIES) (h2 : retries < MAX_RETRIES)
    (ho : outs calls = CallOutcome.failure msg) (hq : isQuotaError msg = true) :
    recognizeLoopAux outs (fuel + 1) retries delay calls delays
      = recognizeLoopAux outs fuel (retries + 1) (delay * 2) (calls + 1)
          (delays ++ [delay]) := by
  simp only [recognizeLoopAux]
  rw [if_pos h1, ho]
  simp [hq, h2]

/-- A quota-classified failed call with the retry budget spent throws the
quota-exhausted error. -/
theorem recognizeLoopAux_quota_spent (outs : Nat → CallOutcome)
    (fuel retries delay calls : Nat) (delays : List Nat) (msg : Str)
    (h1 : retries ≤ MAX_RETRIES) (h2 : ¬ retries < MAX_RETRIES)
    (ho : outs calls = CallOutcome.failure msg) (hq : isQuotaError msg = true) :
    recognizeLoopAux outs (fuel + 1) retries delay calls delays
      = ⟨.error quotaExhaustedMsg, calls + 1, delays⟩ := by
  simp only [recognizeLoopAux]
  rw [if_pos h1, ho]
  simp [hq, h2]

/-! ## Claim theorems for the recognizer -/

/-- C2: when every service call fails with a quota-classified error,
`recognizeDigit`'s loop performs exactly `MAX_RETRIES` (3) retries after
the initial attempt (4 calls in total, not `MAX_RETRIES + 1` retries),
then fails with the quota-exhausted (recognition unavailable) error, and
the backoff delay before retry `k` is
`INITIAL_RETRY_DELAY_MS * 2 ^ (k - 1)`: the delays strictly double
starting at 1000 ms. -/
theorem C2_quota_retry_schedule (outs : Nat → CallOutcome)
    (h : ∀ i, ∃ msg, outs i = CallOutcome.failure msg
          ∧ isQuotaError msg = true) :
    (recognizeLoop outs).result = Except.error quotaExhaustedMsg ∧
    (recognizeLoop outs).calls = 1 + MAX_RETRIES ∧
    (recognizeLoop outs).delays
      = (List.range MAX_RETRIES).map
          (fun k => INITIAL_RETRY_DELAY_MS * 2 ^ k) := by
  obtain ⟨m0, e0, q0⟩ := h 0
  obtain ⟨m1, e1, q1⟩ := h 1
  obtain ⟨m2, e2, q2⟩ := h 2
  obtain ⟨m3, e3, q3⟩ := h 3
  have key : recognizeLoop outs
      = ⟨.error quotaExhaustedMsg, 4, [1000, 2000, 4000]⟩ := by
    show recognizeLoopAux outs 4 0 1000 0 [] = _
    calc recognizeLoopAux outs 4 0 1000 0 []
        = recognizeLoopAux outs 3 1 2000 1 [1000] :=
          recognizeLoopAux_quota_step outs 3 0 1000 0 [] m0
            (by decide) (by decide) e0 q0
      _ = recognizeLoopAux outs 2 2 4000 2 [1000, 2000] :=
          recognizeLoopAux_quota_step outs 2 1 2000 1 [1000] m1
            (by decide) (by decide) e1 q1
      _ = recognizeLoopAux outs 1 3 8000 3 [1000, 2000, 4000] :=
          recognizeLoopAux_quota_step outs 1 2 4000 2 [1000, 2000] m2
            (by decide) (by decide) e2 q2
      _ = ⟨.error quotaExhaustedMsg, 4, [1000, 2000, 4000]⟩ :=
          recognizeLoopAux_quota_spent outs 0 3 8000 3 [1000, 2000, 4000] m3
            (by decide) (by decide) e3 q3
  rw [key]
  refine ⟨rfl, by decide, by decide⟩

/-- C2 witness: the schedule at the concrete all-quota oracle that always
fails with message `'429'`. -/
theorem C2_witness :
    (recognizeLoop (fun _ => CallOutcome.failure ("429".toList))).result
        = Except.error quotaExhaustedMsg ∧
    (recognizeLoop (fun _ => CallOutcome.failure ("429".toList))).calls
        = 1 + MAX_RETRIES ∧
    (recognizeLoop (fun _ => CallOutcome.failure ("429".toList))).delays
      = (List.range MAX_RETRIES).map
          (fun k => INITIAL_RETRY_DELAY_MS * 2 ^ k) :=
  C2_quota_retry_schedule _ (fun _ => ⟨"429".toList, rfl, by decide⟩)

/-- C8: a service call that succeeds but whose response text contains no
decimal digit makes the loop fail immediately with the no-digit error:
exactly one more call, no retry and no backoff delay, at any point of the
loop (so regardless of the remaining retry budget). -/
theorem C8_no_digit_not_retried (outs : Nat → CallOutcome)
    (fuel retries delay calls : Nat) (delays : List Nat) (text : Option Str)
    (hr : retries ≤ MAX_RETRIES)
    (ho : outs calls = CallOutcome.success text)
    (hd : firstDigit (recognizedTextOf text) = none) :
    recognizeLoopAux outs (fuel + 1) retries delay calls delays
      = ⟨.error noDigitMsg, calls + 1, delays⟩ := by
  have hq : isQuotaError noDigitMsg = false := by decide
  have hne : ¬ noDigitMsg = [] := by decide
  simp only [recognizeLoopAux]
  rw [if_pos hr, ho]
  simp [hd, hq, hne]

/-- C8 witness: first attempt answering `'hello'` (no digit), with the
full retry budget remaining. -/
theorem C8_witness :
    recognizeLoopAux (fun _ => CallOutcome.success (some ("hello".toList)))
        4 0 1000 0 []
      = ⟨.error noDigitMsg, 1, []⟩ :=
  C8_no_digit_not_retried _ 3 0 1000 0 [] (some ("hello".toList))
    (by decide) rfl (by decide)

/-- C9: `recognizeDigit` always terminates, making at most
`MAX_RETRIES + 1 = 4` calls to the external classification service, for
every input and every sequence of service-call outcomes. -/
theorem C9_call_bound (img : Str) (outs : Nat → CallOutcome) :
    (recognizeDigit img outs).calls ≤ MAX_RETRIES + 1 := by
  unfold recognizeDigit recognizeLoop
  split
  · dsimp only; omega
  · split
    · dsimp only; omega
    · exact le_trans (recognizeLoopAux_calls_le outs _ _ _ _ _) (by omega)

/-- C10 (amended): for inputs other than `''` and `'data:,'`, the
validation of `recognizeDigit` is decided solely by splitting on
`';base64,'`: the input reaches the service call (at least one call is
made) exactly when it contains exactly one occurrence of `';base64,'`;
the scheme in front of the separator is never otherwise checked. -/
theorem C10_validation (s : Str) (outs : Nat → CallOutcome)
    (h1 : s ≠ []) (h2 : s ≠ "data:,".toList) :
    1 ≤ (recognizeDigit s outs).calls ↔ countB64 s = 1 := by
  unfold recognizeDigit
  rw [if_neg (not_or.mpr ⟨h1, h2⟩)]
  have hc := splitB64_length [] s
  by_cases hlen : (splitB64 [] s).length = 2
  · rw [if_neg (not_not_intro hlen)]
    constructor
    · intro _; omega
    · intro _; exact recognizeLoop_calls_pos outs
  · rw [if_pos hlen]
    dsimp only
    constructor
    · intro hle; omega
    · intro hcount; omega

/-- C10 witness: a well-formed data URL input reaches the service call. -/
theorem C10_witness :
    1 ≤ (recognizeDigit ("data:image/png;base64,AAAA".toList)
          (fun _ => CallOutcome.failure [])).calls
      ↔ countB64 ("data:image/png;base64,AAAA".toList) = 1 :=
  C10_validation _ _ (by decide) (by decide)

/-- C10 counterexample to the claim as stated: on the input
`'xdata:y;base64,Z'` (which passes validation, having exactly one
`';base64,'`), the scheme `'xdata:y'` does not start with `'data:'`, yet
the code's `replace('data:', '')` removes the first occurrence anywhere
and yields mimeType `'xy'` — the scheme is not merely stripped of a
leading `'data:'`. -/
theorem C10_counterexample :
    countB64 ("xdata:y;base64,Z".toList) = 1 ∧
    1 ≤ (recognizeDigit ("xdata:y;base64,Z".toList)
          (fun _ => CallOutcome.failure [])).calls ∧
    mimeTypeOf ("xdata:y;base64,Z".toList) = "xy".toList ∧
    leadingStripDataColon ("xdata:y".toList) = "xdata:y".toList ∧
    mimeTypeOf ("xdata:y;base64,Z".toList)
      ≠ leadingStripDataColon ("xdata:y".toList) := by
  decide

/-! ## Claim theorems for the game controller -/

/-- C1 counterexample to the claim as stated: `handleGuess` itself has no
status guard — invoked on a round whose status is already Lost, with a
correctly recognized digit, it mutates the round and reverses the
terminal status to Won. -/
theorem C1_counterexample :
    (AppState.mk (some 5) none GameStatus.lose 5 none).gameStatus
        = GameStatus.lose ∧
    (handleGuess (AppState.mk (some 5) none GameStatus.lose 5 none)
        ("data:image/png;base64,AAAA".toList)
        (fun _ => CallOutcome.success (some ("5".toList)))).gameStatus
      = GameStatus.win :=
  ⟨rfl, rfl⟩

/-- C1 (amended): `handleGuess` itself rejects only when `targetNumber` is
null; the terminal-round guard lives at the call site — the SUBMIT GUESS
button is disabled whenever the status is not Playing — so the submit
action reachable through the UI is a no-op on every round whose status
is Won or Lost, and through the UI a terminal status is never reversed
except by `startNewGame` creating a new round. -/
theorem C1_guard_at_call_site (isLoading : Bool) (st : AppState) (img : Str)
    (outs : Nat → CallOutcome) (h : st.gameStatus ≠ GameStatus.playing) :
    guardedHandleGuess isLoading st img outs = st := by
  have hd : submitDisabled isLoading st = true := by
    simp [submitDisabled, h]
  simp [guardedHandleGuess, hd]

/-- C1 witness: the guarded submit action on a Lost round is the identity,
even with input and oracle that would have won. -/
theorem C1_witness :
    guardedHandleGuess false (AppState.mk (some 5) none GameStatus.lose 5 none)
        ("data:image/png;base64,AAAA".toList)
        (fun _ => CallOutcome.success (some ("5".toList)))
      = AppState.mk (some 5) none GameStatus.lose 5 none :=
  C1_guard_at_call_site false _ _ _ (by decide)

/-- C3: on a Playing round, a guess whose recognized digit does not match
the target increments `wrongGuesses` by exactly 1, and the status
becomes Lost exactly when the post-increment count reaches the threshold
5, staying Playing below it. -/
theorem C3_wrong_guess (st : AppState) (t : Nat) (img : Str)
    (outs : Nat → CallOutcome) (c : Char)
    (ht : st.targetNumber = some t) (hs : st.gameStatus = GameStatus.playing)
    (himg : ¬(img = [] ∨ img = "data:,".toList))
    (hrec : (recognizeDigit img outs).result = Except.ok c)
    (hwrong : jsParseIntDigit c ≠ t) :
    (handleGuess st img outs).wrongGuesses = st.wrongGuesses + 1 ∧
    ((handleGuess st img outs).gameStatus = GameStatus.lose
        ↔ 5 ≤ st.wrongGuesses + 1) ∧
    (st.wrongGuesses + 1 < 5
        → (handleGuess st img outs).gameStatus = GameStatus.playing) := by
  simp only [handleGuess, ht, hrec, himg, hwrong, if_false, ite_false]
  split_ifs with h5
  · refine ⟨rfl, ?_, ?_⟩
    · simpa using h5
    · intro hlt; omega
  · refine ⟨rfl, ?_, ?_⟩
    · dsimp only
      rw [hs]
      simp only [reduceCtorEq, false_iff]
      omega
    · intro _
      dsimp only
      exact hs

/-- C3 witness: target 7, four prior wrong guesses, recognized digit 3. -/
theorem C3_witness :
    (handleGuess (AppState.mk (some 7) none GameStatus.playing 4 none)
        ("data:image/png;base64,AAAA".toList)
        (fun _ => CallOutcome.success (some ("3".toList)))).wrongGuesses = 5 ∧
    ((handleGuess (AppState.mk (some 7) none GameStatus.playing 4 none)
        ("data:image/png;base64,AAAA".toList)
        (fun _ => CallOutcome.success (some ("3".toList)))).gameStatus
        = GameStatus.lose ↔ 5 ≤ 5) ∧
    (5 < 5
        → (handleGuess (AppState.mk (some 7) none GameStatus.playing 4 none)
            ("data:image/png;base64,AAAA".toList)
            (fun _ => CallOutcome.success (some ("3".toList)))).gameStatus
          = GameStatus.playing) :=
  C3_wrong_guess _ 7 _ _ '3' rfl rfl (by decide) rfl (by decide)

/-- C4: on a Playing round, whatever the prior wrong-guess count, a guess
whose recognized digit equals the target sets the status to Won and does
not increment `wrongGuesses`. -/
theorem C4_correct_guess_wins (st : AppState) (t : Nat) (img : Str)
    (outs : Nat → CallOutcome) (c : Char)
    (ht : st.targetNumber = some t) (_hs : st.gameStatus = GameStatus.playing)
    (himg : ¬(img = [] ∨ img = "data:,".toList))
    (hrec : (recognizeDigit img outs).result = Except.ok c)
    (hcorrect : jsParseIntDigit c = t) :
    (handleGuess st img outs).gameStatus = GameStatus.win ∧
    (handleGuess st img outs).wrongGuesses = st.wrongGuesses := by
  simp only [handleGuess, ht, hrec, himg, hcorrect, eq_self_iff_true, if_false,
    ite_false, if_true, ite_true]
  trivial

/-- C4 witness: target 7, three prior wrong guesses, recognized digit 7. -/
theorem C4_witness :
    (handleGuess (AppState.mk (some 7) none GameStatus.playing 3 none)
        ("data:image/png;base64,AAAA".toList)
        (fun _ => CallOutcome.success (some ("7".toList)))).gameStatus
      = GameStatus.win ∧
    (handleGuess (AppState.mk (some 7) none GameStatus.playing 3 none)
        ("data:image/png;base64,AAAA".toList)
        (fun _ => CallOutcome.success (some ("7".toList)))).wrongGuesses = 3 :=
  C4_correct_guess_wins _ 7 _ _ '7' rfl rfl (by decide) rfl (by decide)

/-- C5: every failure outcome of a submitted guess — empty capture input
or any recognition failure — leaves the round unmutated
(`wrongGuesses`, `gameStatus`, `targetNumber`, `recognizedDigit` keep
their prior values) and is surfaced as an error message only; in
particular a recognition failure is never counted as an incorrect
guess. -/
theorem C5_failure_preserves_round (st : AppState) (t : Nat) (img : Str)
    (outs : Nat → CallOutcome)
    (ht : st.targetNumber = some t)
    (hfail : (img = [] ∨ img = "data:,".toList)
        ∨ ∃ msg, (recognizeDigit img outs).result = Except.error msg) :
    (handleGuess st img outs).wrongGuesses = st.wrongGuesses ∧
    (handleGuess st img outs).gameStatus = st.gameStatus ∧
    (handleGuess st img outs).targetNumber = st.targetNumber ∧
    (handleGuess st img outs).recognizedDigit = st.recognizedDigit ∧
    ∃ m, (handleGuess st img outs).error = some m := by
  by_cases himg : img = [] ∨ img = "data:,".toList
  · simp only [handleGuess, ht, himg, if_true, ite_true]
    refine ⟨?_, ?_, ?_, ?_, ?_⟩ <;> first | trivial | exact ⟨_, rfl⟩
  · rcases hfail with hcontra | ⟨msg, hmsg⟩
    · exact absurd hcontra himg
    · simp only [handleGuess, ht, himg, hmsg, if_false, ite_false]
      refine ⟨?_, ?_, ?_, ?_, ?_⟩ <;> first | trivial | exact ⟨_, rfl⟩

/-- C5 witness: a recognition failure (service error on every call) with
target 7 and two prior wrong guesses mutates nothing but the error. -/
theorem C5_witness :
    (handleGuess (AppState.mk (some 7) none GameStatus.playing 2 none)
        ("data:image/png;base64,AAAA".toList)
        (fun _ => CallOutcome.failure ("boom".toList))).wrongGuesses = 2 ∧
    (handleGuess (AppState.mk (some 7) none GameStatus.playing 2 none)
        ("data:image/png;base64,AAAA".toList)
        (fun _ => CallOutcome.failure ("boom".toList))).gameStatus
      = GameStatus.playing ∧
    (handleGuess (AppState.mk (some 7) none GameStatus.playing 2 none)
        ("data:image/png;base64,AAAA".toList)
        (fun _ => CallOutcome.failure ("boom".toList))).targetNumber
      = some 7 ∧
    (handleGuess (AppState.mk (some 7) none GameStatus.playing 2 none)
        ("data:image/png;base64,AAAA".toList)
        (fun _ => CallOutcome.failure ("boom".toList))).recognizedDigit
      = none ∧
    ∃ m, (handleGuess (AppState.mk (some 7) none GameStatus.playing 2 none)
        ("data:image/png;base64,AAAA".toList)
        (fun _ => CallOutcome.failure ("boom".toList))).error = some m :=
  C5_failure_preserves_round _ 7 _ _ rfl (Or.inr ⟨_, rfl⟩)

/-- C6: for every target digit 0-9 and wrong-guess count `w`, `getHints`
returns exactly `min w 3` hints in order: hint 1 (at `w ≥ 1`) states the
parity of the target, hint 2 (at `w ≥ 2`) states whether it is greater
than 4 or at most 4, and hint 3 (at `w ≥ 3`) classifies 0 and 1 as
neither prime nor composite, 2, 3, 5 and 7 as prime, and the remaining
in-range digits as composite. -/
theorem C6_hint_schedule (t w : Nat) (ht : t ≤ 9) :
    (getHints (some t) w).length = min w 3 ∧
    (1 ≤ w → (getHints (some t) w)[0]?
        = some (if t % 2 = 0 then "The number is EVEN."
                else "The number is ODD.")) ∧
    (2 ≤ w → (getHints (some t) w)[1]?
        = some (if 4 < t then "The number is GREATER than 4."
                else "The number is 4 or LESS.")) ∧
    (3 ≤ w → (getHints (some t) w)[2]?
        = some (if t = 0 ∨ t = 1 then "The number is NEITHER prime nor composite."
                else if t = 2 ∨ t = 3 ∨ t = 5 ∨ t = 7 then "The number is PRIME."
                else "The number is COMPOSITE.")) := by
  have hw : w = 0 ∨ w = 1 ∨ w = 2 ∨ ∃ k, w = k + 3 := by
    rcases Nat.lt_or_ge w 3 with h3 | h3
    · omega
    · exact Or.inr (Or.inr (Or.inr ⟨w - 3, by omega⟩))
  rcases hw with rfl | rfl | rfl | ⟨k, rfl⟩
  · interval_cases t <;> decide
  · interval_cases t <;> decide
  · interval_cases t <;> decide
  · have h1 : (1 : Nat) ≤ k + 3 := by omega
    have h2 : (2 : Nat) ≤ k + 3 := by omega
    have h3 : (3 : Nat) ≤ k + 3 := by omega
    have hmin : min (k + 3) 3 = 3 := by omega
    interval_cases t <;> simp [getHints, h1, h2, h3, hmin]

/-- C6 witness: target 7 with five wrong guesses. -/
theorem C6_witness :
    (getHints (some 7) 5).length = min 5 3 ∧
    (1 ≤ 5 → (getHints (some 7) 5)[0]?
        = some (if 7 % 2 = 0 then "The number is EVEN."
                else "The number is ODD.")) ∧
    (2 ≤ 5 → (getHints (some 7) 5)[1]?
        = some (if 4 < 7 then "The number is GREATER than 4."
                else "The number is 4 or LESS.")) ∧
    (3 ≤ 5 → (getHints (some 7) 5)[2]?
        = some (if 7 = 0 ∨ 7 = 1 then "The number is NEITHER prime nor composite."
                else if 7 = 2 ∨ 7 = 3 ∨ 7 = 5 ∨ 7 = 7 then "The number is PRIME."
                else "The number is COMPOSITE.")) :=
  C6_hint_schedule 7 5 (by decide)

/-- C7: `getHints` is a pure, deterministic function of the pair
(targetNumber, wrongGuesses), and already-unlocked hints are stable:
for counts `w ≤ w'` the hint list at `w` is a list-prefix of the hint
list at `w'`, so for counts at least 3 hints 1 and 2 are identical to
their values at counts 1 and 2 respectively. -/
theorem C7_hints_stable (tn : Option Nat) (w w' : Nat) (h : w ≤ w') :
    List.IsPrefix (getHints tn w) (getHints tn w') ∧
    (3 ≤ w → (getHints tn w)[0]? = (getHints tn 1)[0]?
        ∧ (getHints tn w)[1]? = (getHints tn 2)[1]?) := by
  cases tn with
  | none => simp [getHints]
  | some t =>
    have key : ∀ v : Nat, getHints (some t) v
        = (getHints (some t) 3).take (min v 3) := by
      intro v
      have hv : v = 0 ∨ v = 1 ∨ v = 2 ∨ 3 ≤ v := by omega
      rcases hv with rfl | rfl | rfl | hv
      · rfl
      · rfl
      · rfl
      · have h1 : (1 : Nat) ≤ v := by omega
        have h2 : (2 : Nat) ≤ v := by omega
        have h3 : (3 : Nat) ≤ v := by omega
        have hmin : min v 3 = 3 := by omega
        simp [getHints, h1, h2, h3, hmin]
    constructor
    · rw [key w, key w']
      have hpre := List.take_prefix (min w 3)
        ((getHints (some t) 3).take (min w' 3))
      rw [List.take_take] at hpre
      have hmin : min (min w 3) (min w' 3) = min w 3 := by omega
      rwa [hmin] at hpre
    · intro h3w
      have hmin : min w 3 = 3 := by omega
      constructor
      · rw [key w, key 1, hmin]
        simp [getHints]
      · rw [key w, key 2, hmin]
        simp [getHints]

/-- C7 witness: hints at counts 1 and 3 for target 7. -/
theorem C7_witness :
    List.IsPrefix (getHints (some 7) 3) (getHints (some 7) 5) ∧
    (3 ≤ 3 → (getHints (some 7) 3)[0]? = (getHints (some 7) 1)[0]?
        ∧ (getHints (some 7) 3)[1]? = (getHints (some 7) 2)[1]?) :=
  C7_hints_stable (some 7) 3 5 (by decide)

end NumberGuesser
